import Mathlib

/-!
Verification of the tracker file acquisition and storage pipeline of the
print-vault repository, as a shallow embedding in Lean 4.

Each Python function relevant to the claims is translated into an
executable Lean definition.  Conventions used throughout:

* Python ints are `Nat` (byte counts, ids) or `Int` where the source can
  go negative (e.g. `available - required_with_buffer`).
* Python exceptions become `Except` values or dedicated outcome
  constructors; an uncaught exception is an explicit error constructor.
* Effectful calls (HTTP requests, `time.sleep`, file writes) are
  abstracted by oracle parameters: a function from the attempt/file index
  to the outcome the environment produced for it.  The traces the
  embedding returns (timeouts used, delays slept) record exactly the
  values the source would pass to those calls.
* The source computes `int(required_bytes * 1.1)` and
  `total_size * 0.95` in binary floating point.  The embedding uses the
  exact rational values (`* 11 / 10` over `Nat`, comparisons scaled by
  100); every concrete input used in a theorem below is far from the
  rounding boundary, so the float and rational computations agree there.

The file is organised as: all definitions first, then all theorems.
-/

namespace PrintVault

/-! # Definitions -/

/-! ## StorageManager (src/inventory/services/storage_manager.py) -/

/-- `int(required_bytes * 1.1)` from `StorageManager.check_available_space`
(line 73), as the exact rational computation over `Nat`. -/
def requiredWithBuffer (required_bytes : Nat) : Nat :=
  required_bytes * 11 / 10

/-- The dictionary `check_available_space` returns (lines 78-90).
`shortage` is `some _` exactly when the source adds the `shortage` key. -/
structure SpaceCheck where
  sufficient : Bool
  available : Int
  required : Int
  required_with_buffer : Int
  after_download : Int
  min_free_space : Int
  shortage : Option Int
  deriving Repr, DecidableEq

/-- A Python dict value appearing in the space-check result. -/
inductive PyVal where
  | int (i : Int)
  | bool (b : Bool)
  deriving Repr, DecidableEq

/-- Subscript access `result[key]` on the dict built by
`check_available_space`: exactly the keys the source stores (lines 78-90)
are present; any other key raises `KeyError`, modelled as `none`. -/
def SpaceCheck.getKey (r : SpaceCheck) (k : String) : Option PyVal :=
  if k = "sufficient" then some (.bool r.sufficient)
  else if k = "available" then some (.int r.available)
  else if k = "required" then some (.int r.required)
  else if k = "required_with_buffer" then some (.int r.required_with_buffer)
  else if k = "after_download" then some (.int r.after_download)
  else if k = "min_free_space" then some (.int r.min_free_space)
  else if k = "shortage" then r.shortage.map PyVal.int
  else none

/-- `StorageManager.check_available_space` (lines 46-99).  `available` is
`shutil.disk_usage(self.base_path).free`, supplied as a parameter since it
is environment state.  Note the source raises only when the local variable
`sufficient` (the 10% buffer check of line 76) is false; the
minimum-free-space floor check of line 88 merely rewrites
`result['sufficient']` and adds `shortage`. -/
def check_available_space (available required_bytes min_free_space : Nat) :
    Except String SpaceCheck :=
  let required_with_buffer := requiredWithBuffer required_bytes
  let sufficient : Bool := decide (required_with_buffer ≤ available)
  let base : SpaceCheck :=
    { sufficient := sufficient
      available := available
      required := required_bytes
      required_with_buffer := required_with_buffer
      after_download := (available : Int) - (required_with_buffer : Int)
      min_free_space := min_free_space
      shortage := none }
  let result :=
    if base.after_download < (min_free_space : Int) then
      { base with
          sufficient := false
          shortage := some ((min_free_space : Int) - base.after_download) }
    else base
  if sufficient then Except.ok result
  else Except.error "Insufficient disk space"

/-! ## sanitize_filename (storage_manager.py lines 343-373) -/

/-- The characters `StorageManager.sanitize_filename` replaces
(`invalid_chars` of line 356). -/
def invalidChars : List Char := ['<', '>', ':', '"', '/', '\\', '|', '?', '*']

/-- One round of `filename.replace(char, '_')` (line 358). -/
def replaceChar (c : Char) (l : List Char) : List Char :=
  l.map fun x => if x = c then '_' else x

/-- The loop of lines 357-358: successive `str.replace(char, '_')` for
each invalid character. -/
def stripInvalid (l : List Char) : List Char :=
  invalidChars.foldl (fun acc c => replaceChar c acc) l

/-- The character set of `filename.strip('. ')`. -/
def isDotSpace (c : Char) : Bool := c = '.' || c = ' '

/-- Python `filename.strip('. ')` (line 361): remove leading and trailing
dots and spaces. -/
def pyStripDotSpace (l : List Char) : List Char :=
  ((l.dropWhile isDotSpace).reverse.dropWhile isDotSpace).reverse

/-- Index of the last occurrence of `c` in `l`, if any. -/
def lastIdxOf (c : Char) (l : List Char) : Option Nat :=
  l.enum.foldl (fun acc p => if p.2 = c then some p.1 else acc) none

/-- `os.path.splitext` (line 365) for separator-free names (after line 358
the name contains neither '/' nor '\\'): split at the last dot unless every
character before that dot is itself a dot, following CPython's
`genericpath._splitext`. -/
def splitext (l : List Char) : List Char × List Char :=
  match lastIdxOf '.' l with
  | none => (l, [])
  | some di =>
    if (l.take di).any (fun c => c ≠ '.') then (l.take di, l.drop di)
    else (l, [])

/-- Python slice `name[:k]` for a possibly negative bound `k`
(`max_name_length` of line 366 is negative when the extension is longer
than `max_length`). -/
def pySliceTo (k : Int) (l : List Char) : List Char :=
  if 0 ≤ k then l.take k.toNat else l.take ((l.length : Int) + k).toNat

/-- `StorageManager.sanitize_filename` (lines 343-373). -/
def sanitize_filename (filename : List Char) (max_length : Nat := 255) :
    List Char :=
  let f1 := stripInvalid filename
  let f2 := pyStripDotSpace f1
  let f3 :=
    if max_length < f2.length then
      let ne := splitext f2
      pySliceTo ((max_length : Int) - (ne.2.length : Int)) ne.1 ++ ne.2
    else f2
  if f3.isEmpty then "unnamed_file".data else f3

/-! ## FileDownloadService
(src/inventory/services/file_download_service.py) -/

/-- Outcome of the size-verification stage of `download_file`
(lines 157-180).  `total_size` is the declared `content-length` value
(line 132) and `actual_size` is `os.path.getsize(destination)` after the
stream completed (line 160).  `corruptRemoved` models
`os.remove(destination)` followed by `raise DownloadError(...)`
(lines 163-168); `ok` models the success dict of lines 170-180, whose
`bytes_downloaded` is `actual_size`. -/
inductive VerifyOutcome where
  | ok (bytes_downloaded : Nat)
  | corruptRemoved
  deriving Repr, DecidableEq

/-- Lines 159-175 of `download_file`: the deviation gate
`total_size > 0 and abs(actual_size - total_size) > 1024` and, inside it,
the deletion gate `actual_size < total_size * 0.95` (exact rational form:
`100 * actual_size < 95 * total_size`). -/
def verifyDownloadedSize (total_size actual_size : Nat) : VerifyOutcome :=
  if 0 < total_size ∧
      1024 < ((actual_size : Int) - (total_size : Int)).natAbs then
    if 100 * actual_size < 95 * total_size then VerifyOutcome.corruptRemoved
    else VerifyOutcome.ok actual_size
  else VerifyOutcome.ok actual_size

/-- The result of one `download_file` invocation as seen by
`download_with_retry` (lines 213-249): a success dict; a
`DownloadTimeoutError`; a `DownloadError` whose message may contain
'404'; or one of the exception types the `except` clause of line 229
does not catch (`FileTooLargeError` from line 134, `ValueError` from
`validate_url`), which therefore propagate out of the loop at once. -/
inductive AttemptResult where
  | success (bytes_downloaded : Nat)
  | timeoutErr
  | downloadErr (has404 : Bool)
  | tooLarge
  | valueErr
  deriving Repr, DecidableEq

/-- The failure kinds the `except (DownloadTimeoutError, DownloadError)`
clause of line 229 catches and — absent the 404 short-circuit — retries. -/
def retryableResult : AttemptResult → Bool
  | .timeoutErr => true
  | .downloadErr false => true
  | _ => false

/-- Final state of a `download_with_retry` call. -/
inductive RetryOutcome where
  | ok (bytes_downloaded attempts : Nat)
  | raised404
  | raisedTooLarge
  | raisedValueErr
  | exhausted (attempts : Nat)
  deriving Repr, DecidableEq

/-- Observable trace of one `download_with_retry` call: the timeout
passed to each `download_file` invocation (line 216), the delays passed
to `time.sleep` (lines 247-249) in order, and the final outcome
(`exhausted n` models the final `DownloadError` of lines 252-255). -/
structure RetryTrace where
  timeouts : List Nat
  sleeps : List Nat
  outcome : RetryOutcome
  deriving Repr, DecidableEq

/-- The `for attempt in range(max_retries)` loop of `download_with_retry`
(lines 213-255), iterating over the remaining attempt indices.  `oracle`
abstracts the network: it yields the result of the `download_file` call
made at a given attempt index. -/
def retryLoop (oracle : Nat → AttemptResult)
    (base_timeout retry_delay max_retries : Nat) :
    List Nat → RetryTrace
  | [] =>
    { timeouts := [], sleeps := [], outcome := .exhausted max_retries }
  | attempt :: rest =>
    let timeout := base_timeout * (attempt + 1)
    match oracle attempt with
    | .success b =>
      { timeouts := [timeout], sleeps := [], outcome := .ok b (attempt + 1) }
    | .tooLarge =>
      { timeouts := [timeout], sleeps := [], outcome := .raisedTooLarge }
    | .valueErr =>
      { timeouts := [timeout], sleeps := [], outcome := .raisedValueErr }
    | .downloadErr true =>
      { timeouts := [timeout], sleeps := [], outcome := .raised404 }
    | .downloadErr false =>
      let r := retryLoop oracle base_timeout retry_delay max_retries rest
      { timeouts := timeout :: r.timeouts
        sleeps := (if attempt < max_retries - 1 then
            [retry_delay ^ attempt] else []) ++ r.sleeps
        outcome := r.outcome }
    | .timeoutErr =>
      let r := retryLoop oracle base_timeout retry_delay max_retries rest
      { timeouts := timeout :: r.timeouts
        sleeps := (if attempt < max_retries - 1 then
            [retry_delay ^ attempt] else []) ++ r.sleeps
        outcome := r.outcome }

/-- `FileDownloadService.download_with_retry` (lines 194-255).
`max_retries` is the value after the defaulting of line 210. -/
def download_with_retry (oracle : Nat → AttemptResult)
    (base_timeout retry_delay max_retries : Nat) : RetryTrace :=
  retryLoop oracle base_timeout retry_delay max_retries
    (List.range max_retries)

/-- An all-transient-failures network: every attempt raises
`DownloadTimeoutError`. -/
def oracleAllTimeout : Nat → AttemptResult := fun _ => .timeoutErr

/-- A network on which the first attempt raises `FileTooLargeError`. -/
def oracleTooLargeFirst : Nat → AttemptResult := fun _ => .tooLarge

/-- Python `needle in haystack` on strings. -/
def pyInStr (needle haystack : String) : Bool :=
  decide (needle.data <:+: haystack.data)

/-- `os.path.basename` for forward-slash paths. -/
def pyBasename (s : String) : String :=
  (s.splitOn "/").getLastD ""

/-- GitHub view-URL rewriting (lines 301-307 of
`download_files_batch`). -/
def rewriteGithubUrl (url : String) : String :=
  if pyInStr "github.com" url && !pyInStr "raw.githubusercontent.com" url
  then
    (url.replace "github.com" "raw.githubusercontent.com").replace
      "/blob/" "/"
  else url

/-- One entry of the `file_list` argument of `download_files_batch`
(line 262).  `name`/`tracker_file_id` are `None` when the dict lacks the
key. -/
structure BatchFileInfo where
  url : String
  destination : String
  name : Option String
  tracker_file_id : Option Nat
  deriving Repr, DecidableEq

/-- Result of attempting one file inside `download_files_batch`: the
dict returned by `download_with_retry` (line 309) together with the
post-download `compute_checksum` result of lines 316-321 (`none` models
the checksum attempt raising and being swallowed, which yields `''`), or
the exception caught at line 340 with its message and class name. -/
inductive FileAttempt where
  | ok (bytes_downloaded duration attempts : Nat) (checksum : Option String)
  | raise (error error_type : String)
  deriving Repr, DecidableEq

/-- Whether the attempt succeeded. -/
def FileAttempt.isOk : FileAttempt → Bool
  | .ok .. => true
  | .raise .. => false

/-- The success dict appended at line 337. -/
structure SuccessRec where
  name : String
  url : String
  destination : String
  bytes_downloaded : Nat
  duration : Nat
  attempts : Nat
  checksum : String
  tracker_file_id : Option Nat
  deriving Repr, DecidableEq

/-- The failure dict appended at line 353. -/
structure FailRec where
  name : String
  url : String
  destination : String
  error : String
  error_type : String
  tracker_file_id : Option Nat
  deriving Repr, DecidableEq

/-- The `results` accumulator of `download_files_batch` (lines 273-278);
the wall-clock `duration` entry is not modelled. -/
structure BatchResults where
  successful : List SuccessRec
  failed : List FailRec
  total_bytes : Nat
  deriving Repr, DecidableEq

/-- Success-dict construction of lines 323-335, including the
`file_info.get('name', os.path.basename(destination))` defaulting of
line 285. -/
def mkSuccess (f : BatchFileInfo) (b d a : Nat) (c : Option String) :
    SuccessRec :=
  { name := f.name.getD (pyBasename f.destination)
    url := f.url
    destination := f.destination
    bytes_downloaded := b
    duration := d
    attempts := a
    checksum := c.getD ""
    tracker_file_id := f.tracker_file_id }

/-- Failure-dict construction of lines 341-351. -/
def mkFail (f : BatchFileInfo) (e t : String) : FailRec :=
  { name := f.name.getD (pyBasename f.destination)
    url := f.url
    destination := f.destination
    error := e
    error_type := t
    tracker_file_id := f.tracker_file_id }

/-- The `for index, file_info in enumerate(file_list)` loop of
`download_files_batch` (lines 282-353).  `oracle` abstracts the attempt
of one file (the `download_with_retry` call on the rewritten URL
`rewriteGithubUrl url`, plus the checksum step); the batch records keep
the original `url` as in the source. -/
def runBatch (oracle : Nat → FileAttempt) :
    Nat → List BatchFileInfo → BatchResults
  | _, [] => { successful := [], failed := [], total_bytes := 0 }
  | i, f :: rest =>
    let r := runBatch oracle (i + 1) rest
    match oracle i with
    | .ok b d a c =>
      { successful := mkSuccess f b d a c :: r.successful
        failed := r.failed
        total_bytes := b + r.total_bytes }
    | .raise e t =>
      { successful := r.successful
        failed := mkFail f e t :: r.failed
        total_bytes := r.total_bytes }

/-- `FileDownloadService.download_files_batch` (lines 257-357). -/
def download_files_batch (oracle : Nat → FileAttempt)
    (file_list : List BatchFileInfo) : BatchResults :=
  runBatch oracle 0 file_list

/-! ## GitHub crawler (src/inventory/services/github_service.py) -/

/-- `PRINTABLE_EXTENSIONS` (line 19). -/
def PRINTABLE_EXTENSIONS : List String :=
  [".3mf", ".stl", ".oltp", ".stp", ".step", ".svg", ".amf", ".obj"]

/-- `FILE_SIZE_WARN_BYTES` (line 20): 10 MB. -/
def FILE_SIZE_WARN_BYTES : Nat := 10 * 1024 * 1024

/-- `FILE_SIZE_BLOCK_BYTES` (line 21): 100 MB. -/
def FILE_SIZE_BLOCK_BYTES : Nat := 100 * 1024 * 1024

/-- One entry of the GitHub tree response the crawler consumes (`path`,
`type`, `size`); `size` is `item.get('size', 0)`. -/
structure GHFile where
  path : String
  size : Nat
  type : String
  deriving Repr, DecidableEq

/-- Python `s.strip('/')`. -/
def pyStripSlashes (s : String) : String :=
  String.mk (((s.data.dropWhile (fun c => c = '/')).reverse.dropWhile
    (fun c => c = '/')).reverse)

/-- Python `s.lower()`, per character (the inputs of interest are ASCII;
`Char.toLower` matches Python there). -/
def pyLower (s : String) : String :=
  String.mk (s.data.map Char.toLower)

/-- Python `s.startswith(pre)`. -/
def pyStartsWith (s pre : String) : Bool :=
  pre.data.isPrefixOf s.data

/-- Python `s.split(c)` for a one-character separator. -/
def splitOnChar (c : Char) : List Char → List (List Char)
  | [] => [[]]
  | x :: xs =>
    let r := splitOnChar c xs
    if x = c then [] :: r
    else
      match r with
      | [] => [[x]]
      | y :: ys => (x :: y) :: ys

/-- `'.' + path.lower().split('.')[-1] if '.' in path else ''`
(line 281, and again at line 452). -/
def fileExtOf (path : String) : String :=
  if path.data.contains '.' then
    "." ++ String.mk ((splitOnChar '.' (pyLower path).data).getLastD [])
  else ""

/-- The per-file admission test of `filter_printable_files`
(lines 276-283): keep the entry when the base path is empty or is a raw
string prefix of the entry path (`path.startswith(base_path.strip('/'))`)
and the (lower-cased) extension is on the allow-list. -/
def passesFilter (base_path : String) (f : GHFile) : Bool :=
  (decide (base_path = "") || pyStartsWith f.path (pyStripSlashes base_path))
    && decide (fileExtOf f.path ∈ PRINTABLE_EXTENSIONS)

/-- `filter_printable_files` (lines 255-295): the loop over `files`,
yielding `(normal_files, large_files, blocked_files)` with the size
tiers of lines 288-293. -/
def filter_printable_files :
    List GHFile → String → List GHFile × List GHFile × List GHFile
  | [], _ => ([], [], [])
  | f :: rest, base_path =>
    let r := filter_printable_files rest base_path
    if passesFilter base_path f then
      if FILE_SIZE_BLOCK_BYTES ≤ f.size then (r.1, r.2.1, f :: r.2.2)
      else if FILE_SIZE_WARN_BYTES ≤ f.size then (r.1, f :: r.2.1, r.2.2)
      else (f :: r.1, r.2.1, r.2.2)
    else r

/-- The `stats` block `crawl_github_repository` builds (lines 444-486);
`file_types` and the floating-point `total_size_mb` are not modelled. -/
structure CrawlStats where
  total_files : Nat
  normal_files : Nat
  large_files : Nat
  blocked_files : Nat
  total_size : Nat
  deriving Repr, DecidableEq

/-- The pure tail of `crawl_github_repository` after the network fetch
(lines 417-447): `fetch_tree` keeps only entries with `type == 'blob'`
(line 245), `filter_printable_files` partitions them,
`all_printable = normal + large + blocked` (line 423), and an empty
result raises `EmptyResultError` (lines 426-430). -/
def crawl_stats (tree : List GHFile) (path : String) :
    Except String CrawlStats :=
  let all_files := tree.filter (fun it => it.type == "blob")
  let parts := filter_printable_files all_files path
  let all_printable := parts.1 ++ parts.2.1 ++ parts.2.2
  if all_printable.isEmpty then Except.error "EmptyResultError"
  else Except.ok
    { total_files := all_printable.length
      normal_files := parts.1.length
      large_files := parts.2.1.length
      blocked_files := parts.2.2.length
      total_size := (all_printable.map GHFile.size).sum }

/-- The claim's reading of "located under that subpath", written from
the spec's words for comparison with the code's raw-prefix test: the
path begins with the stripped subpath followed by a slash (or the
subpath is empty). -/
def locatedUnderSubpath (base_path : String) (f : GHFile) : Bool :=
  decide (base_path = "") ||
    pyStartsWith f.path (pyStripSlashes base_path ++ "/")

/-- `get_cache_key` (lines 127-146). -/
def get_cache_key (owner repo branch path : String) : String :=
  let owner := pyLower owner
  let repo := pyLower repo
  let branch := pyLower branch
  let path := if path = "" then "" else pyLower (pyStripSlashes path)
  "github_tree:" ++ owner ++ ":" ++ repo ++ ":" ++ branch ++ ":" ++ path

/-! ## Acquisition orchestrators
(`TrackerSerializer._download_tracker_files`, serializers.py lines
788-984, and `_download_tracker_files_for_manual`, views.py lines
1708-1860) -/

/-- A tracker-file row as the orchestrators read it.  A `None` size is
`none`; a `None` directory path and an empty one behave identically
(truthiness), so both are the empty string here. -/
structure TrackerFileRec where
  id : Nat
  filename : String
  file_size : Option Nat
  github_url : String
  directory_path : String
  deriving Repr, DecidableEq

/-- `sum(f.file_size for f in tracker_files if f.file_size)`
(serializers.py line 799): `None` and `0` are skipped by truthiness. -/
def totalRequestedSize (files : List TrackerFileRec) : Nat :=
  ((files.filterMap TrackerFileRec.file_size).filter
    (fun s => s != 0)).sum

/-- The per-file error text the orchestrators record, as a structured
value standing for the formatted message (each constructor's arguments
are batch-level values, so the text is identical for every descriptor of
the batch). -/
inductive ErrMsg where
  | insufficientFlagSerializer (need : Nat) (available_formatted : PyVal)
  | insufficientFlagManual (need : Nat) (available : PyVal)
  | insufficientRaise (msg : String)
  | pathFail
  | transfer (msg : String)
  deriving Repr, DecidableEq

/-- The dict an orchestrator returns (serializers.py lines 811-822 /
830-841 / 849-860 / 874-885 / 979-984): per-file successes
`(file_id, filename, bytes_downloaded, duration)`, per-file failures
`(file_id, filename, error)`, `total_bytes`, and the optional top-level
`error` string. -/
structure OrchResult where
  successful : List (Nat × String × Nat × Nat)
  failed : List (Nat × String × ErrMsg)
  total_bytes : Nat
  error : Option String
  deriving Repr, DecidableEq

/-- Either the returned results dict or an uncaught Python exception
(`KeyError` on a missing dict key). -/
inductive OrchOutcome where
  | crash (key : String)
  | result (r : OrchResult)
  deriving Repr, DecidableEq

/-- `StorageManager.get_tracker_storage_path` (lines 101-134), the path
computation only; directory creation is environment state and its
failure is the `storagePathOk = false` case of the orchestrators. -/
def get_tracker_storage_path (base_path : String) (tracker_id : Nat) :
    String :=
  base_path ++ "/" ++ toString tracker_id ++ "/files"

/-- `StorageManager.get_category_path` (lines 136-161). -/
def get_category_path (base_path : String) (organize_by_category : Bool)
    (tracker_id : Nat) (category : String) : String :=
  if organize_by_category = false ∨ category = "" then
    get_tracker_storage_path base_path tracker_id
  else
    get_tracker_storage_path base_path tracker_id ++ "/" ++
      String.mk (sanitize_filename category.data 255)

/-- The `file_list` construction of serializers.py lines 887-921 /
views.py lines 1765-1796: category defaulting (`or 'uncategorized'`),
category path, sanitized filename, destination. -/
def buildFileList (base_path : String) (organize : Bool)
    (tracker_id : Nat) (files : List TrackerFileRec) :
    List BatchFileInfo :=
  files.map fun tf =>
    let category :=
      if tf.directory_path = "" then "uncategorized" else tf.directory_path
    let category_path :=
      get_category_path base_path organize tracker_id category
    let safe_filename := String.mk (sanitize_filename tf.filename.data 255)
    { url := tf.github_url
      destination := category_path ++ "/" ++ safe_filename
      name := some tf.filename
      tracker_file_id := some tf.id }

/-- The result-folding of serializers.py lines 926-984: each batch
outcome is matched back to a tracker file by `tracker_file_id` via
`next(...)`; only matched outcomes are recorded and only their bytes are
summed. -/
def foldDownloadResults (files : List TrackerFileRec)
    (br : BatchResults) : OrchResult :=
  let succ := br.successful.filterMap fun s =>
    s.tracker_file_id.bind fun fid =>
      (files.find? (fun tf => tf.id == fid)).map fun tf =>
        (tf.id, tf.filename, s.bytes_downloaded, s.duration)
  let fail := br.failed.filterMap fun s =>
    s.tracker_file_id.bind fun fid =>
      (files.find? (fun tf => tf.id == fid)).map fun tf =>
        (tf.id, tf.filename, ErrMsg.transfer s.error)
  { successful := succ
    failed := fail
    total_bytes := (succ.map (fun q => q.2.2.1)).sum
    error := none }

/-- `TrackerSerializer._download_tracker_files` (serializers.py lines
788-984).  `available`/`min_free` abstract the disk state;
`storagePathOk` abstracts whether `get_tracker_storage_path` succeeds
(lines 863-885); `batchFn` abstracts
`download_service.download_files_batch` (line 924).  The
insufficient-flag branch (lines 804-822) formats each per-file message
from `space_check['available_formatted']` — a key
`check_available_space` never stores — so with a non-empty file list
that branch raises `KeyError` before anything is returned. -/
def serializer_download_tracker_files
    (available min_free : Nat) (base_path : String) (organize : Bool)
    (tracker_id : Nat) (files : List TrackerFileRec)
    (storagePathOk : Bool)
    (batchFn : List BatchFileInfo → BatchResults) : OrchOutcome :=
  let total_size := totalRequestedSize files
  match check_available_space available total_size min_free with
  | Except.error e =>
    OrchOutcome.result
      { successful := []
        failed := files.map fun tf =>
          (tf.id, tf.filename, ErrMsg.insufficientRaise e)
        total_bytes := 0
        error := some e }
  | Except.ok space_check =>
    if space_check.sufficient then
      if storagePathOk then
        OrchOutcome.result (foldDownloadResults files
          (batchFn (buildFileList base_path organize tracker_id files)))
      else
        OrchOutcome.result
          { successful := []
            failed := files.map fun tf =>
              (tf.id, tf.filename, ErrMsg.pathFail)
            total_bytes := 0
            error := some "Failed to create storage path" }
    else
      match files with
      | [] =>
        OrchOutcome.result
          { successful := [], failed := [], total_bytes := 0,
            error := some "Insufficient disk space" }
      | _ :: _ =>
        match space_check.getKey "available_formatted" with
        | none => OrchOutcome.crash "available_formatted"
        | some v =>
          OrchOutcome.result
            { successful := []
              failed := files.map fun tf =>
                (tf.id, tf.filename,
                  ErrMsg.insufficientFlagSerializer total_size v)
              total_bytes := 0
              error := some "Insufficient disk space" }

/-- `_download_tracker_files_for_manual` (views.py lines 1708-1860),
"same logic as serializer's" per its docstring; its insufficient-flag
branch (lines 1722-1733) formats the message from
`space_check['available']`, which `check_available_space` does store. -/
def views_download_tracker_files_for_manual
    (available min_free : Nat) (base_path : String) (organize : Bool)
    (tracker_id : Nat) (files : List TrackerFileRec)
    (storagePathOk : Bool)
    (batchFn : List BatchFileInfo → BatchResults) : OrchOutcome :=
  let total_size := totalRequestedSize files
  match check_available_space available total_size min_free with
  | Except.error e =>
    OrchOutcome.result
      { successful := []
        failed := files.map fun tf =>
          (tf.id, tf.filename, ErrMsg.insufficientRaise e)
        total_bytes := 0
        error := some e }
  | Except.ok space_check =>
    if space_check.sufficient then
      if storagePathOk then
        OrchOutcome.result (foldDownloadResults files
          (batchFn (buildFileList base_path organize tracker_id files)))
      else
        OrchOutcome.result
          { successful := []
            failed := files.map fun tf =>
              (tf.id, tf.filename, ErrMsg.pathFail)
            total_bytes := 0
            error := some "Failed to create storage path" }
    else
      match space_check.getKey "available" with
      | none => OrchOutcome.crash "available"
      | some v =>
        OrchOutcome.result
          { successful := []
            failed := files.map fun tf =>
              (tf.id, tf.filename,
                ErrMsg.insufficientFlagManual total_size v)
            total_bytes := 0
            error := some "Insufficient disk space" }

end PrintVault

namespace PrintVault

/-! # Theorems -/

/-! ## Claim C1: preflight raise vs sufficient flag -/

/-- Normal form of `check_available_space`, splitting on the two
conditions the source evaluates. -/
theorem check_available_space_spec (a r f : Nat) :
    check_available_space a r f =
      if requiredWithBuffer r ≤ a then
        Except.ok
          (if (a : Int) - (requiredWithBuffer r : Int) < (f : Int) then
            { sufficient := false, available := a, required := r,
              required_with_buffer := requiredWithBuffer r,
              after_download := (a : Int) - (requiredWithBuffer r : Int),
              min_free_space := f,
              shortage := some ((f : Int) -
                ((a : Int) - (requiredWithBuffer r : Int))) }
          else
            { sufficient := decide (requiredWithBuffer r ≤ a),
              available := a, required := r,
              required_with_buffer := requiredWithBuffer r,
              after_download := (a : Int) - (requiredWithBuffer r : Int),
              min_free_space := f, shortage := none })
      else Except.error "Insufficient disk space" := by
  unfold check_available_space
  by_cases hb : requiredWithBuffer r ≤ a
  · simp [hb]
  · simp [hb]

/-- **C1** (amended).  `check_available_space` raises
`InsufficientStorageError` exactly when the 10% buffer check alone fails
(`available < required_bytes * 1.1`); the conjunction with the
minimum-free-space floor governs only the `sufficient` flag of the
returned result.  In particular, when the buffer check passes but the
remaining space after download would fall below the floor, the function
does not raise: it returns a result marked `sufficient := false` with a
`shortage` field. -/
theorem check_available_space_raises_iff (a r f : Nat) :
    ((∃ e, check_available_space a r f = Except.error e) ↔
        a < requiredWithBuffer r) ∧
    ((∃ res, check_available_space a r f = Except.ok res ∧
        res.sufficient = true) ↔
      (requiredWithBuffer r ≤ a ∧
        (f : Int) ≤ (a : Int) - (requiredWithBuffer r : Int))) := by
  rw [check_available_space_spec]
  by_cases hb : requiredWithBuffer r ≤ a
  · rw [if_pos hb]
    by_cases hf : (a : Int) - (requiredWithBuffer r : Int) < (f : Int)
    · rw [if_pos hf]
      constructor
      · constructor
        · rintro ⟨e, he⟩
          simp at he
        · intro h
          exact absurd hb (by omega)
      · constructor
        · rintro ⟨res, hres, hsuff⟩
          simp only [Except.ok.injEq] at hres
          subst hres
          simp at hsuff
        · rintro ⟨-, hle⟩
          exact absurd hle (by omega)
    · rw [if_neg hf]
      constructor
      · constructor
        · rintro ⟨e, he⟩
          simp at he
        · intro h
          exact absurd hb (by omega)
      · constructor
        · intro _
          exact ⟨hb, by omega⟩
        · intro _
          exact ⟨_, rfl, by simp [hb]⟩
  · rw [if_neg hb]
    constructor
    · constructor
      · intro _
        omega
      · intro _
        exact ⟨_, rfl⟩
    · constructor
      · rintro ⟨res, hres, -⟩
        exact absurd hres (by simp)
      · rintro ⟨hle, -⟩
        exact absurd hle hb

/-- **C1** counterexample to the claim as stated: with 2200 bytes free, a
batch needing 2000 bytes (buffer: 2200) and a 5 GiB floor, the conjunction
of the spec is violated (after-download space 0 is below the floor), yet
`check_available_space` returns normally (no `InsufficientStorageError`),
merely flagging `sufficient := false`. -/
theorem check_available_space_floor_no_raise :
    ¬(requiredWithBuffer 2000 ≤ 2200 →
        (5368709120 : Int) ≤ (2200 : Int) - (requiredWithBuffer 2000 : Int)) ∧
    (∃ res, check_available_space 2200 2000 5368709120 = Except.ok res ∧
      res.sufficient = false) :=
  ⟨by decide, ⟨_, rfl, rfl⟩⟩

/-! ## Helper lemmas about the sanitizer -/

theorem mem_replaceChar {x c : Char} {l : List Char}
    (h : x ∈ replaceChar c l) : x = '_' ∨ (x ∈ l ∧ x ≠ c) := by
  unfold replaceChar at h
  rcases List.mem_map.mp h with ⟨y, hy, hxy⟩
  by_cases hyc : y = c
  · subst hyc
    simp at hxy
    exact Or.inl hxy.symm
  · rw [if_neg hyc] at hxy
    subst hxy
    exact Or.inr ⟨hy, hyc⟩

theorem mem_foldl_replace :
    ∀ (cs l : List Char) (x : Char),
      x ∈ cs.foldl (fun acc c => replaceChar c acc) l → x = '_' ∨ x ∈ l := by
  intro cs
  induction cs with
  | nil =>
    intro l x h
    exact Or.inr (by simpa using h)
  | cons a rest ih =>
    intro l x h
    simp only [List.foldl_cons] at h
    rcases ih _ _ h with h1 | h2
    · exact Or.inl h1
    · rcases mem_replaceChar h2 with h3 | ⟨h4, -⟩
      · exact Or.inl h3
      · exact Or.inr h4

theorem not_mem_foldl_replace :
    ∀ (cs : List Char), '_' ∉ cs →
      ∀ (l : List Char) (x : Char), x ∈ cs →
        x ∉ cs.foldl (fun acc c => replaceChar c acc) l := by
  intro cs
  induction cs with
  | nil =>
    intro _ l x hx
    exact absurd hx (by simp)
  | cons a rest ih =>
    intro hu l x hx hmem
    simp only [List.foldl_cons] at hmem
    rcases List.mem_cons.mp hx with rfl | hrest
    · rcases mem_foldl_replace rest _ _ hmem with h | h
      · exact hu (h ▸ List.mem_cons_self _ _)
      · rcases mem_replaceChar h with h1 | ⟨-, hne⟩
        · exact hu (h1 ▸ List.mem_cons_self _ _)
        · exact hne rfl
    · exact ih (fun hm => hu (List.mem_cons_of_mem a hm))
        (replaceChar a l) x hrest hmem

/-- After the replacement loop, no invalid character remains. -/
theorem stripInvalid_no_invalid {x : Char} (l : List Char)
    (hx : x ∈ invalidChars) : x ∉ stripInvalid l :=
  not_mem_foldl_replace invalidChars (by decide) l x hx

theorem mem_of_mem_dropWhile {p : Char → Bool} :
    ∀ {l : List Char} {x : Char}, x ∈ l.dropWhile p → x ∈ l := by
  intro l
  induction l with
  | nil =>
    intro x h
    simp at h
  | cons a t ih =>
    intro x h
    rw [List.dropWhile_cons] at h
    by_cases hp : p a = true
    · rw [if_pos hp] at h
      exact List.mem_cons_of_mem a (ih h)
    · rw [if_neg hp] at h
      exact h

theorem mem_of_mem_pyStripDotSpace {x : Char} {l : List Char}
    (h : x ∈ pyStripDotSpace l) : x ∈ l := by
  unfold pyStripDotSpace at h
  rw [List.mem_reverse] at h
  have h1 := mem_of_mem_dropWhile h
  rw [List.mem_reverse] at h1
  exact mem_of_mem_dropWhile h1

theorem head?_dropWhile_not {p : Char → Bool} :
    ∀ {l : List Char} {c : Char}, (l.dropWhile p).head? = some c →
      p c = false := by
  intro l
  induction l with
  | nil =>
    intro c h
    simp at h
  | cons a t ih =>
    intro c h
    rw [List.dropWhile_cons] at h
    by_cases hp : p a = true
    · rw [if_pos hp] at h
      exact ih h
    · rw [if_neg hp] at h
      simp only [List.head?_cons, Option.some.injEq] at h
      subst h
      exact Bool.eq_false_iff.mpr hp

/-- The doubly-stripped name is a prefix of the left-stripped name. -/
theorem pyStripDotSpace_prefix (l : List Char) :
    pyStripDotSpace l <+: l.dropWhile isDotSpace := by
  unfold pyStripDotSpace
  have hsuf : (l.dropWhile isDotSpace).reverse.dropWhile isDotSpace
      <:+ (l.dropWhile isDotSpace).reverse := List.dropWhile_suffix _
  have h := List.reverse_prefix.mpr (by simpa using hsuf)
  simpa using h

/-- The stripped name neither starts nor ends with a dot or space. -/
theorem pyStripDotSpace_no_edge_dotspace (l : List Char) :
    (∀ c, (pyStripDotSpace l).head? = some c → isDotSpace c = false) ∧
    (∀ c, (pyStripDotSpace l).getLast? = some c → isDotSpace c = false) := by
  constructor
  · intro c hc
    rcases pyStripDotSpace_prefix l with ⟨tail, htail⟩
    have hhead : (l.dropWhile isDotSpace).head? = some c := by
      rw [← htail, List.head?_append, hc]
      rfl
    exact head?_dropWhile_not hhead
  · intro c hc
    have h : ((pyStripDotSpace l).reverse).head? = some c := by
      rw [List.head?_reverse]
      exact hc
    unfold pyStripDotSpace at h
    rw [List.reverse_reverse] at h
    exact head?_dropWhile_not h

theorem splitext_fst_subset (l : List Char) : (splitext l).1 ⊆ l := by
  unfold splitext
  split
  · intro x hx
    exact hx
  · split
    · exact List.take_subset _ _
    · intro x hx
      exact hx

theorem splitext_snd_subset (l : List Char) : (splitext l).2 ⊆ l := by
  unfold splitext
  split
  · exact List.nil_subset _
  · split
    · exact List.drop_subset _ _
    · exact List.nil_subset _

theorem pySliceTo_subset (k : Int) (l : List Char) : pySliceTo k l ⊆ l := by
  unfold pySliceTo
  split
  · exact List.take_subset _ _
  · exact List.take_subset _ _

/-- `sanitize_filename` when no truncation happens. -/
theorem sanitize_filename_eq_small (l : List Char) (m : Nat)
    (h : ¬m < (pyStripDotSpace (stripInvalid l)).length) :
    sanitize_filename l m =
      if (pyStripDotSpace (stripInvalid l)).isEmpty then "unnamed_file".data
      else pyStripDotSpace (stripInvalid l) := by
  simp only [sanitize_filename]
  rw [if_neg h]

/-- `sanitize_filename` in the truncation branch. -/
theorem sanitize_filename_eq_trunc (l : List Char) (m : Nat)
    (h : m < (pyStripDotSpace (stripInvalid l)).length) :
    sanitize_filename l m =
      if (pySliceTo ((m : Int) -
            ((splitext (pyStripDotSpace (stripInvalid l))).2.length : Int))
          (splitext (pyStripDotSpace (stripInvalid l))).1 ++
          (splitext (pyStripDotSpace (stripInvalid l))).2).isEmpty then
        "unnamed_file".data
      else
        pySliceTo ((m : Int) -
            ((splitext (pyStripDotSpace (stripInvalid l))).2.length : Int))
          (splitext (pyStripDotSpace (stripInvalid l))).1 ++
          (splitext (pyStripDotSpace (stripInvalid l))).2 := by
  simp only [sanitize_filename]
  rw [if_pos h]

/-! ## Claim C8: sanitize_filename guarantees -/

/-- **C8** (amended).  For every input and `max_length`,
`sanitize_filename` returns a non-empty name containing none of the
characters of `invalid_chars` — in particular no path separator — and
when no truncation is needed (the stripped name is non-empty and at most
`max_length` long) the result is exactly the stripped name: at most
`max_length` characters with no leading or trailing dots or spaces.
Under truncation the `splitext` extension is preserved verbatim as a
suffix; the truncated result, however, may retain a trailing dot or space
and may exceed `max_length` (see the counterexample). -/
theorem sanitize_filename_props (l : List Char) (m : Nat) :
    sanitize_filename l m ≠ [] ∧
    (∀ c, c ∈ sanitize_filename l m → c ∉ invalidChars) ∧
    (pyStripDotSpace (stripInvalid l) ≠ [] →
      (pyStripDotSpace (stripInvalid l)).length ≤ m →
      sanitize_filename l m = pyStripDotSpace (stripInvalid l) ∧
      (sanitize_filename l m).length ≤ m ∧
      (∀ c, (sanitize_filename l m).head? = some c →
        isDotSpace c = false) ∧
      (∀ c, (sanitize_filename l m).getLast? = some c →
        isDotSpace c = false)) ∧
    (m < (pyStripDotSpace (stripInvalid l)).length →
      (splitext (pyStripDotSpace (stripInvalid l))).2 <:+
        sanitize_filename l m) := by
  have hdef : ∀ c, c ∈ "unnamed_file".data → c ∉ invalidChars := by decide
  have hmem : ∀ c, c ∈ sanitize_filename l m → c ∉ invalidChars := by
    intro c hc hbad
    by_cases htr : m < (pyStripDotSpace (stripInvalid l)).length
    · rw [sanitize_filename_eq_trunc l m htr] at hc
      by_cases hemp : (pySliceTo ((m : Int) -
          ((splitext (pyStripDotSpace (stripInvalid l))).2.length : Int))
          (splitext (pyStripDotSpace (stripInvalid l))).1 ++
          (splitext (pyStripDotSpace (stripInvalid l))).2).isEmpty = true
      · rw [if_pos hemp] at hc
        exact hdef c hc hbad
      · rw [if_neg hemp] at hc
        rcases List.mem_append.mp hc with h | h
        · exact stripInvalid_no_invalid l hbad
            (mem_of_mem_pyStripDotSpace
              (splitext_fst_subset _ (pySliceTo_subset _ _ h)))
        · exact stripInvalid_no_invalid l hbad
            (mem_of_mem_pyStripDotSpace (splitext_snd_subset _ h))
    · rw [sanitize_filename_eq_small l m htr] at hc
      by_cases hemp : (pyStripDotSpace (stripInvalid l)).isEmpty = true
      · rw [if_pos hemp] at hc
        exact hdef c hc hbad
      · rw [if_neg hemp] at hc
        exact stripInvalid_no_invalid l hbad (mem_of_mem_pyStripDotSpace hc)
  have hnonempty : sanitize_filename l m ≠ [] := by
    by_cases htr : m < (pyStripDotSpace (stripInvalid l)).length
    · rw [sanitize_filename_eq_trunc l m htr]
      by_cases hemp : (pySliceTo ((m : Int) -
          ((splitext (pyStripDotSpace (stripInvalid l))).2.length : Int))
          (splitext (pyStripDotSpace (stripInvalid l))).1 ++
          (splitext (pyStripDotSpace (stripInvalid l))).2).isEmpty = true
      · rw [if_pos hemp]
        decide
      · rw [if_neg hemp]
        intro hnil
        rw [hnil] at hemp
        exact hemp rfl
    · rw [sanitize_filename_eq_small l m htr]
      by_cases hemp : (pyStripDotSpace (stripInvalid l)).isEmpty = true
      · rw [if_pos hemp]
        decide
      · rw [if_neg hemp]
        intro hnil
        rw [hnil] at hemp
        exact hemp rfl
  refine ⟨hnonempty, hmem, ?_, ?_⟩
  · -- no truncation: result is the stripped name
    intro hne hlen
    have hemp : ¬(pyStripDotSpace (stripInvalid l)).isEmpty = true := by
      intro h
      cases hx : pyStripDotSpace (stripInvalid l) with
      | nil => exact hne hx
      | cons a t =>
        rw [hx] at h
        simp at h
    have hres : sanitize_filename l m = pyStripDotSpace (stripInvalid l) := by
      rw [sanitize_filename_eq_small l m (by omega), if_neg hemp]
    refine ⟨hres, by rw [hres]; exact hlen, ?_, ?_⟩
    · intro c hc
      rw [hres] at hc
      exact (pyStripDotSpace_no_edge_dotspace (stripInvalid l)).1 c hc
    · intro c hc
      rw [hres] at hc
      exact (pyStripDotSpace_no_edge_dotspace (stripInvalid l)).2 c hc
  · -- truncation preserves the extension as a suffix
    intro htr
    rw [sanitize_filename_eq_trunc l m htr]
    by_cases hemp : (pySliceTo ((m : Int) -
        ((splitext (pyStripDotSpace (stripInvalid l))).2.length : Int))
        (splitext (pyStripDotSpace (stripInvalid l))).1 ++
        (splitext (pyStripDotSpace (stripInvalid l))).2).isEmpty = true
    · rw [if_pos hemp]
      have hnil : pySliceTo ((m : Int) -
          ((splitext (pyStripDotSpace (stripInvalid l))).2.length : Int))
            (splitext (pyStripDotSpace (stripInvalid l))).1 ++
            (splitext (pyStripDotSpace (stripInvalid l))).2 = [] := by
        cases hx : pySliceTo ((m : Int) -
            ((splitext (pyStripDotSpace (stripInvalid l))).2.length : Int))
              (splitext (pyStripDotSpace (stripInvalid l))).1 ++
              (splitext (pyStripDotSpace (stripInvalid l))).2 with
        | nil => rfl
        | cons a t =>
          rw [hx] at hemp
          simp at hemp
      have hE := (List.append_eq_nil.mp hnil).2
      rw [hE]
      exact ⟨"unnamed_file".data, List.append_nil _⟩
    · rw [if_neg hemp]
      exact ⟨_, rfl⟩

/-- Witness for `sanitize_filename_props`: a well-behaved name is returned
unchanged, and a truncated name keeps its extension. -/
theorem sanitize_filename_props_witness :
    (sanitize_filename "my file.stl".data 255 =
        pyStripDotSpace (stripInvalid "my file.stl".data) ∧
      (sanitize_filename "my file.stl".data 255).length ≤ 255 ∧
      (∀ c, (sanitize_filename "my file.stl".data 255).head? = some c →
        isDotSpace c = false) ∧
      (∀ c, (sanitize_filename "my file.stl".data 255).getLast? = some c →
        isDotSpace c = false)) ∧
    (splitext (pyStripDotSpace (stripInvalid "verylongname.stl".data))).2 <:+
      sanitize_filename "verylongname.stl".data 8 := by
  constructor
  · exact (sanitize_filename_props "my file.stl".data 255).2.2.1
      (by decide) (by decide)
  · exact (sanitize_filename_props "verylongname.stl".data 8).2.2.2
      (by decide)

/-- **C8** counterexample to the claim as stated: truncation can leave a
trailing space (input `"ab cdefgh"`, `max_length = 3`, output `"ab "`)
and, when the extension is longer than `max_length`, the Python negative
slice makes the result longer than `max_length` (input `"aaaa.stl"`,
`max_length = 3`, output `"aaa.stl"` of length 7). -/
theorem sanitize_filename_violations :
    (sanitize_filename "ab cdefgh".data 3).getLast? = some ' ' ∧
    3 < (sanitize_filename "aaaa.stl".data 3).length := by decide

/-! ## Claim C4: size verification after a completed download -/

/-- **C4** (amended).  After a completed stream, the file is deleted and
`DownloadError` raised exactly when the declared size is positive, the
on-disk size deviates from it by more than 1 KB, *and* the on-disk size
is below 95% of the declared size; in every other case — including a
deviation larger than 1 KB that stays at or above the 95% mark — the
outcome is success reporting the actual on-disk size. -/
theorem verifyDownloadedSize_spec (t a : Nat) :
    (verifyDownloadedSize t a = VerifyOutcome.corruptRemoved ↔
      (0 < t ∧ 1024 < ((a : Int) - (t : Int)).natAbs ∧
        100 * a < 95 * t)) ∧
    (verifyDownloadedSize t a = VerifyOutcome.corruptRemoved ∨
      verifyDownloadedSize t a = VerifyOutcome.ok a) := by
  unfold verifyDownloadedSize
  by_cases h1 : 0 < t ∧ 1024 < ((a : Int) - (t : Int)).natAbs
  · rw [if_pos h1]
    by_cases h2 : 100 * a < 95 * t
    · rw [if_pos h2]
      exact ⟨⟨fun _ => ⟨h1.1, h1.2, h2⟩, fun _ => rfl⟩, Or.inl rfl⟩
    · rw [if_neg h2]
      refine ⟨⟨fun h => VerifyOutcome.noConfusion h, ?_⟩, Or.inr rfl⟩
      rintro ⟨-, -, hc⟩
      exact absurd hc h2
  · rw [if_neg h1]
    refine ⟨⟨fun h => VerifyOutcome.noConfusion h, ?_⟩, Or.inr rfl⟩
    rintro ⟨ht, hd, -⟩
    exact absurd ⟨ht, hd⟩ h1

/-- **C4** counterexample to the claim as stated: a download declared as
1000000 bytes that leaves 998000 bytes on disk deviates by 2000 bytes
(more than 1 KB), yet the code reports success with the wrong size
because 998000 is above 95% of the declared size — the file is not
deleted and no `DownloadError` is raised. -/
theorem verifyDownloadedSize_1kb_not_enforced :
    1024 < ((998000 : Int) - (1000000 : Int)).natAbs ∧ 0 < 1000000 ∧
    verifyDownloadedSize 1000000 998000 = VerifyOutcome.ok 998000 := by
  decide

/-! ## Retry-loop lemmas -/

theorem retryLoop_length_le (o : Nat → AttemptResult) (bt rd mr : Nat) :
    ∀ (n a : Nat),
      (retryLoop o bt rd mr (List.range' a n)).timeouts.length ≤ n := by
  intro n
  induction n with
  | zero =>
    intro a
    simp [List.range', retryLoop]
  | succ n ih =>
    intro a
    rw [List.range'_succ]
    cases ho : o a with
    | success b =>
      simp [retryLoop, ho]
    | tooLarge =>
      simp [retryLoop, ho]
    | valueErr =>
      simp [retryLoop, ho]
    | timeoutErr =>
      simp only [retryLoop, ho, List.length_cons]
      have := ih (a + 1)
      omega
    | downloadErr h4 =>
      cases h4
      · simp only [retryLoop, ho, List.length_cons]
        have := ih (a + 1)
        omega
      · simp [retryLoop, ho]

theorem retryLoop_timeouts_map (o : Nat → AttemptResult) (bt rd mr : Nat) :
    ∀ (n a : Nat),
      (retryLoop o bt rd mr (List.range' a n)).timeouts =
        (List.range' a
            (retryLoop o bt rd mr (List.range' a n)).timeouts.length).map
          (fun i => bt * (i + 1)) := by
  intro n
  induction n with
  | zero =>
    intro a
    rfl
  | succ n ih =>
    intro a
    rw [List.range'_succ]
    cases ho : o a with
    | success b =>
      simp [retryLoop, ho, List.range'_succ]
    | tooLarge =>
      simp [retryLoop, ho, List.range'_succ]
    | valueErr =>
      simp [retryLoop, ho, List.range'_succ]
    | timeoutErr =>
      simp only [retryLoop, ho, List.length_cons, List.range'_succ,
        List.map_cons]
      exact congrArg _ (ih (a + 1))
    | downloadErr h4 =>
      cases h4
      · simp only [retryLoop, ho, List.length_cons, List.range'_succ,
          List.map_cons]
        exact congrArg _ (ih (a + 1))
      · simp [retryLoop, ho, List.range'_succ]

theorem retryLoop_sleeps_map (o : Nat → AttemptResult) (bt rd mr : Nat) :
    ∀ (n a : Nat), a + n = mr →
      (retryLoop o bt rd mr (List.range' a n)).sleeps =
        (List.range' a
            (retryLoop o bt rd mr (List.range' a n)).sleeps.length).map
          (fun k => rd ^ k) := by
  intro n
  induction n with
  | zero =>
    intro a _
    rfl
  | succ n ih =>
    intro a hmr
    rw [List.range'_succ]
    cases ho : o a with
    | success b =>
      simp [retryLoop, ho]
    | tooLarge =>
      simp [retryLoop, ho]
    | valueErr =>
      simp [retryLoop, ho]
    | timeoutErr =>
      by_cases hlt : a < mr - 1
      · simp only [retryLoop, ho, if_pos hlt, List.cons_append,
          List.nil_append, List.length_cons, List.range'_succ,
          List.map_cons]
        exact congrArg _ (ih (a + 1) (by omega))
      · have hn : n = 0 := by omega
        subst hn
        simp [retryLoop, ho, if_neg hlt, List.range']
    | downloadErr h4 =>
      cases h4
      · by_cases hlt : a < mr - 1
        · simp only [retryLoop, ho, if_pos hlt, List.cons_append,
            List.nil_append, List.length_cons, List.range'_succ,
            List.map_cons]
          exact congrArg _ (ih (a + 1) (by omega))
        · have hn : n = 0 := by omega
          subst hn
          simp [retryLoop, ho, if_neg hlt, List.range']
      · simp [retryLoop, ho]

theorem retryLoop_stop (o : Nat → AttemptResult) (bt rd mr : Nat) :
    ∀ (n a k : Nat), a ≤ k → k < a + n →
      (∀ i, a ≤ i → i < k → retryableResult (o i) = true) →
      (o k = .tooLarge ∨ o k = .downloadErr true) →
      (retryLoop o bt rd mr (List.range' a n)).timeouts.length = k + 1 - a ∧
      ((retryLoop o bt rd mr (List.range' a n)).outcome =
          RetryOutcome.raisedTooLarge ∨
        (retryLoop o bt rd mr (List.range' a n)).outcome =
          RetryOutcome.raised404) := by
  intro n
  induction n with
  | zero =>
    intro a k h1 h2 _ _
    exact absurd h2 (by omega)
  | succ n ih =>
    intro a k h1 h2 hretry hstop
    rw [List.range'_succ]
    by_cases hk : k = a
    · subst hk
      rcases hstop with h | h
      · simp only [retryLoop, h, List.length_cons, List.length_nil]
        exact ⟨by omega, Or.inl (by simp)⟩
      · simp only [retryLoop, h, List.length_cons, List.length_nil]
        exact ⟨by omega, Or.inr (by simp)⟩
    · have hka : a < k := by omega
      have hra : retryableResult (o a) = true :=
        hretry a (Nat.le_refl a) hka
      have hrec := fun hstep => ih (a + 1) k (by omega) (by omega)
        (fun i hi1 hi2 => hretry i (by omega) hi2) hstep
      cases ho : o a with
      | success b =>
        rw [ho] at hra
        simp [retryableResult] at hra
      | tooLarge =>
        rw [ho] at hra
        simp [retryableResult] at hra
      | valueErr =>
        rw [ho] at hra
        simp [retryableResult] at hra
      | timeoutErr =>
        obtain ⟨hl, hoc⟩ := hrec hstop
        simp only [retryLoop, ho, List.length_cons]
        exact ⟨by omega, hoc⟩
      | downloadErr h4 =>
        cases h4
        · obtain ⟨hl, hoc⟩ := hrec hstop
          simp only [retryLoop, ho, List.length_cons]
          exact ⟨by omega, hoc⟩
        · rw [ho] at hra
          simp [retryableResult] at hra

theorem retryLoop_exhaust (o : Nat → AttemptResult) (bt rd mr : Nat) :
    ∀ (n a : Nat),
      (∀ i, a ≤ i → i < a + n → retryableResult (o i) = true) →
      (retryLoop o bt rd mr (List.range' a n)).timeouts.length = n ∧
      (retryLoop o bt rd mr (List.range' a n)).outcome =
        RetryOutcome.exhausted mr := by
  intro n
  induction n with
  | zero =>
    intro a _
    exact ⟨rfl, rfl⟩
  | succ n ih =>
    intro a hall
    rw [List.range'_succ]
    have hra : retryableResult (o a) = true :=
      hall a (Nat.le_refl a) (by omega)
    cases ho : o a with
    | success b =>
      rw [ho] at hra
      simp [retryableResult] at hra
    | tooLarge =>
      rw [ho] at hra
      simp [retryableResult] at hra
    | valueErr =>
      rw [ho] at hra
      simp [retryableResult] at hra
    | timeoutErr =>
      obtain ⟨h1, h2⟩ := ih (a + 1) (fun i hi1 hi2 => hall i (by omega)
        (by omega))
      simp only [retryLoop, ho, List.length_cons]
      exact ⟨by omega, h2⟩
    | downloadErr h4 =>
      cases h4
      · obtain ⟨h1, h2⟩ := ih (a + 1) (fun i hi1 hi2 => hall i (by omega)
          (by omega))
        simp only [retryLoop, ho, List.length_cons]
        exact ⟨by omega, h2⟩
      · rw [ho] at hra
        simp [retryableResult] at hra

/-! ## Claim C6: retry budget and short-circuits -/

/-- **C6**.  `download_with_retry` invokes `download_file` at most
`max_retries` times no matter how attempts fail; if the attempt at index
`k` (after `k` retryable failures) raises `FileTooLargeError` or a
`DownloadError` carrying an HTTP 404, the loop stops there — exactly
`k + 1` invocations, so exactly one when the first attempt fails that
way — and the error propagates; if every allowed attempt fails with a
retryable timeout/network error, exactly `max_retries` invocations are
made and the final `DownloadError` of line 252 is raised. -/
theorem download_with_retry_bounds (o : Nat → AttemptResult)
    (bt rd mr : Nat) :
    (download_with_retry o bt rd mr).timeouts.length ≤ mr ∧
    (∀ k, k < mr → (∀ i, i < k → retryableResult (o i) = true) →
      (o k = .tooLarge ∨ o k = .downloadErr true) →
      (download_with_retry o bt rd mr).timeouts.length = k + 1 ∧
      ((download_with_retry o bt rd mr).outcome =
          RetryOutcome.raisedTooLarge ∨
        (download_with_retry o bt rd mr).outcome =
          RetryOutcome.raised404)) ∧
    ((∀ i, i < mr → retryableResult (o i) = true) →
      (download_with_retry o bt rd mr).timeouts.length = mr ∧
      (download_with_retry o bt rd mr).outcome =
        RetryOutcome.exhausted mr) := by
  unfold download_with_retry
  rw [List.range_eq_range']
  refine ⟨retryLoop_length_le o bt rd mr mr 0, ?_, ?_⟩
  · intro k hk hpre hstop
    have h := retryLoop_stop o bt rd mr mr 0 k (Nat.zero_le k) (by omega)
      (fun i _ hik => hpre i hik) hstop
    simpa using h
  · intro hall
    exact retryLoop_exhaust o bt rd mr mr 0 (fun i _ hi => hall i
      (by omega))

/-- Witness for `download_with_retry_bounds`: a first-attempt
`FileTooLargeError` stops after one invocation, and an all-timeout
network exhausts exactly 3 attempts before the final `DownloadError`. -/
theorem download_with_retry_bounds_witness :
    ((download_with_retry oracleTooLargeFirst 600 2 3).timeouts.length =
        0 + 1 ∧
      ((download_with_retry oracleTooLargeFirst 600 2 3).outcome =
          RetryOutcome.raisedTooLarge ∨
        (download_with_retry oracleTooLargeFirst 600 2 3).outcome =
          RetryOutcome.raised404)) ∧
    ((download_with_retry oracleAllTimeout 600 2 3).timeouts.length = 3 ∧
      (download_with_retry oracleAllTimeout 600 2 3).outcome =
        RetryOutcome.exhausted 3) := by
  constructor
  · exact (download_with_retry_bounds oracleTooLargeFirst 600 2 3).2.1 0
      (by omega) (fun i hi => absurd hi (by omega)) (Or.inl rfl)
  · exact (download_with_retry_bounds oracleAllTimeout 600 2 3).2.2
      (fun i _ => rfl)

/-! ## Claim C7: backoff delays and escalating timeouts -/

/-- **C7** (amended).  The timeout passed to the attempt at index `i`
(counting from 0) is `base_timeout * (i + 1)`, and the delays slept
between attempts are `retry_delay ^ 0, retry_delay ^ 1, ...` in order —
i.e. the delay slept before attempt `n` (for `n ≥ 1`) is
`retry_delay ^ (n - 1)`, not `retry_delay ^ n`: the `k`-th sleep equals
`retry_delay ^ k` where the `k`-th sleep separates attempt `k` from
attempt `k + 1`. -/
theorem download_with_retry_schedule (o : Nat → AttemptResult)
    (bt rd mr : Nat) :
    (download_with_retry o bt rd mr).timeouts =
      (List.range (download_with_retry o bt rd mr).timeouts.length).map
        (fun i => bt * (i + 1)) ∧
    (download_with_retry o bt rd mr).sleeps =
      (List.range (download_with_retry o bt rd mr).sleeps.length).map
        (fun k => rd ^ k) := by
  unfold download_with_retry
  rw [List.range_eq_range', List.range_eq_range', List.range_eq_range']
  exact ⟨retryLoop_timeouts_map o bt rd mr mr 0,
    retryLoop_sleeps_map o bt rd mr mr 0 (Nat.zero_add mr)⟩

/-- **C7** counterexample to the claim as stated: with
`retry_delay = 2` and three all-timeout attempts the delays slept are
`[2 ^ 0, 2 ^ 1] = [1, 2]`.  The delay before attempt 1 is therefore 1
second, not `2 ^ 1 = 2` as the claim's formula `retryDelayBase ^ n`
predicts (nor `2 ^ 2` under 1-based attempt numbering). -/
theorem retry_delay_off_by_one :
    (download_with_retry oracleAllTimeout 600 2 3).sleeps = [1, 2] ∧
    (1 : Nat) ≠ 2 ^ 1 ∧ (1 : Nat) ≠ 2 ^ 2 := by decide

/-! ## Batch-loop lemmas -/

theorem runBatch_spec (o : Nat → FileAttempt) :
    ∀ (l : List BatchFileInfo) (i : Nat),
      (runBatch o i l).successful = (l.enumFrom i).filterMap (fun p =>
          match o p.1 with
          | .ok b d a c => some (mkSuccess p.2 b d a c)
          | .raise _ _ => none) ∧
      (runBatch o i l).failed = (l.enumFrom i).filterMap (fun p =>
          match o p.1 with
          | .ok _ _ _ _ => none
          | .raise e t => some (mkFail p.2 e t)) ∧
      (runBatch o i l).successful.length +
        (runBatch o i l).failed.length = l.length ∧
      (runBatch o i l).total_bytes =
        ((runBatch o i l).successful.map
          SuccessRec.bytes_downloaded).sum := by
  intro l
  induction l with
  | nil =>
    intro i
    exact ⟨rfl, rfl, rfl, rfl⟩
  | cons f rest ih =>
    intro i
    obtain ⟨ih1, ih2, ih3, ih4⟩ := ih (i + 1)
    cases ho : o i with
    | ok b d a c =>
      refine ⟨?_, ?_, ?_, ?_⟩
      · simp only [runBatch, ho, List.enumFrom_cons, List.filterMap_cons]
        exact congrArg _ ih1
      · simp only [runBatch, ho, List.enumFrom_cons, List.filterMap_cons]
        exact ih2
      · simp only [runBatch, ho, List.length_cons]
        omega
      · simp only [runBatch, ho, List.map_cons, List.sum_cons, mkSuccess]
        omega
    | raise e t =>
      refine ⟨?_, ?_, ?_, ?_⟩
      · simp only [runBatch, ho, List.enumFrom_cons, List.filterMap_cons]
        exact ih1
      · simp only [runBatch, ho, List.enumFrom_cons, List.filterMap_cons]
        exact congrArg _ ih2
      · simp only [runBatch, ho, List.length_cons]
        omega
      · simp only [runBatch, ho]
        exact ih4

/-! ## Claim C3: one outcome per descriptor, failures isolated -/

/-- **C3**.  `download_files_batch` yields exactly one outcome per input
entry: the successes are precisely the entries whose attempt succeeded
(in input order) and the failures precisely those whose attempt raised
(in input order), so every entry lands in one of the two lists and never
both, and the lengths sum to the input length.  The characterisation
shows each entry's outcome depends only on its own attempt, so one
entry's failure never prevents the remaining entries from being
attempted. -/
theorem download_files_batch_partition (o : Nat → FileAttempt)
    (l : List BatchFileInfo) :
    (download_files_batch o l).successful =
      (l.enumFrom 0).filterMap (fun p =>
        match o p.1 with
        | .ok b d a c => some (mkSuccess p.2 b d a c)
        | .raise _ _ => none) ∧
    (download_files_batch o l).failed =
      (l.enumFrom 0).filterMap (fun p =>
        match o p.1 with
        | .ok _ _ _ _ => none
        | .raise e t => some (mkFail p.2 e t)) ∧
    (download_files_batch o l).successful.length +
      (download_files_batch o l).failed.length = l.length := by
  obtain ⟨h1, h2, h3, -⟩ := runBatch_spec o l 0
  exact ⟨h1, h2, h3⟩

/-! ## Claim C5: total_bytes sums the successful outcomes -/

/-- **C5**.  For every batch, the `total_bytes` accumulator equals the
sum of `bytes_downloaded` over exactly the successful outcomes. -/
theorem download_files_batch_total_bytes (o : Nat → FileAttempt)
    (l : List BatchFileInfo) :
    (download_files_batch o l).total_bytes =
      ((download_files_batch o l).successful.map
        SuccessRec.bytes_downloaded).sum :=
  (runBatch_spec o l 0).2.2.2

/-! ## Claim C2: preflight failure short-circuits the batch -/

/-- **C2** evaluated at the failing input.  A tracker with one file of
declared size 2000, 2200 bytes free (the 10% buffer passes exactly) and
a 5 GiB minimum-free floor drives the preflight into the
`sufficient = False` flag branch.  There the serializer orchestrator
raises an uncaught `KeyError('available_formatted')` instead of
returning the synthesized all-failed result (first conjunct), while the
views twin — identical logic with the existing `'available'` key —
returns the all-failed result the claim describes, independently of the
transfer engine, for every batch function (second conjunct).  On the
raising path (available below the buffer) the serializer does return
the all-failed result with the shared error text and zero bytes for
every batch function (third conjunct). -/
theorem serializer_preflight_keyerror :
    serializer_download_tracker_files 2200 5368709120 "/media/trackers"
        true 8
        [{ id := 101, filename := "part.stl", file_size := some 2000,
           github_url := "https://github.com/a/b/blob/main/part.stl",
           directory_path := "Body" }]
        true (fun _ => { successful := [], failed := [], total_bytes := 0 })
      = OrchOutcome.crash "available_formatted" ∧
    (∀ batchFn,
      views_download_tracker_files_for_manual 2200 5368709120
        "/media/trackers" true 8
        [{ id := 101, filename := "part.stl", file_size := some 2000,
           github_url := "https://github.com/a/b/blob/main/part.stl",
           directory_path := "Body" }]
        true batchFn
      = OrchOutcome.result
          { successful := []
            failed := [(101, "part.stl",
              ErrMsg.insufficientFlagManual 2000 (PyVal.int 2200))]
            total_bytes := 0
            error := some "Insufficient disk space" }) ∧
    (∀ batchFn,
      serializer_download_tracker_files 1000 5368709120 "/media/trackers"
        true 8
        [{ id := 101, filename := "part.stl", file_size := some 2000,
           github_url := "https://github.com/a/b/blob/main/part.stl",
           directory_path := "Body" }]
        true batchFn
      = OrchOutcome.result
          { successful := []
            failed := [(101, "part.stl",
              ErrMsg.insufficientRaise "Insufficient disk space")]
            total_bytes := 0
            error := some "Insufficient disk space" }) :=
  ⟨rfl, fun _ => rfl, fun _ => rfl⟩

/-! ## Claim C9: crawler partition and subpath filtering -/

theorem filter_printable_files_spec (bp : String) :
    ∀ fs : List GHFile,
      (filter_printable_files fs bp).1.length +
          (filter_printable_files fs bp).2.1.length +
          (filter_printable_files fs bp).2.2.length =
        (fs.filter (passesFilter bp)).length ∧
      (∀ f ∈ (filter_printable_files fs bp).1,
        f.size < FILE_SIZE_WARN_BYTES) ∧
      (∀ f ∈ (filter_printable_files fs bp).2.1,
        FILE_SIZE_WARN_BYTES ≤ f.size ∧ f.size < FILE_SIZE_BLOCK_BYTES) ∧
      (∀ f ∈ (filter_printable_files fs bp).2.2,
        FILE_SIZE_BLOCK_BYTES ≤ f.size) ∧
      (∀ f ∈ fs, passesFilter bp f = true →
        FILE_SIZE_BLOCK_BYTES ≤ f.size →
        f ∈ (filter_printable_files fs bp).2.2) := by
  intro fs
  induction fs with
  | nil =>
    refine ⟨rfl, ?_, ?_, ?_, ?_⟩ <;> simp [filter_printable_files]
  | cons f rest ih =>
    obtain ⟨ih1, ih2, ih3, ih4, ih5⟩ := ih
    by_cases hp : passesFilter bp f = true
    · by_cases hblock : FILE_SIZE_BLOCK_BYTES ≤ f.size
      · refine ⟨?_, ?_, ?_, ?_, ?_⟩
        · simp only [filter_printable_files, if_pos hp, if_pos hblock,
            List.filter_cons, hp, if_true, List.length_cons]
          omega
        · simpa only [filter_printable_files, if_pos hp, if_pos hblock]
            using ih2
        · simpa only [filter_printable_files, if_pos hp, if_pos hblock]
            using ih3
        · simp only [filter_printable_files, if_pos hp, if_pos hblock]
          intro g hg
          rcases List.mem_cons.mp hg with rfl | hg2
          · exact hblock
          · exact ih4 g hg2
        · simp only [filter_printable_files, if_pos hp, if_pos hblock]
          intro g hg hgp hgb
          rcases List.mem_cons.mp hg with rfl | hg2
          · exact List.mem_cons_self _ _
          · exact List.mem_cons_of_mem _ (ih5 g hg2 hgp hgb)
      · by_cases hwarn : FILE_SIZE_WARN_BYTES ≤ f.size
        · refine ⟨?_, ?_, ?_, ?_, ?_⟩
          · simp only [filter_printable_files, if_pos hp, if_neg hblock,
              if_pos hwarn, List.filter_cons, hp, if_true,
              List.length_cons]
            omega
          · simpa only [filter_printable_files, if_pos hp, if_neg hblock,
              if_pos hwarn] using ih2
          · simp only [filter_printable_files, if_pos hp, if_neg hblock,
              if_pos hwarn]
            intro g hg
            rcases List.mem_cons.mp hg with rfl | hg2
            · exact ⟨hwarn, by omega⟩
            · exact ih3 g hg2
          · simpa only [filter_printable_files, if_pos hp, if_neg hblock,
              if_pos hwarn] using ih4
          · simp only [filter_printable_files, if_pos hp, if_neg hblock,
              if_pos hwarn]
            intro g hg hgp hgb
            rcases List.mem_cons.mp hg with rfl | hg2
            · exact absurd hgb hblock
            · exact ih5 g hg2 hgp hgb
        · refine ⟨?_, ?_, ?_, ?_, ?_⟩
          · simp only [filter_printable_files, if_pos hp, if_neg hblock,
              if_neg hwarn, List.filter_cons, hp, if_true,
              List.length_cons]
            omega
          · simp only [filter_printable_files, if_pos hp, if_neg hblock,
              if_neg hwarn]
            intro g hg
            rcases List.mem_cons.mp hg with rfl | hg2
            · omega
            · exact ih2 g hg2
          · simpa only [filter_printable_files, if_pos hp, if_neg hblock,
              if_neg hwarn] using ih3
          · simpa only [filter_printable_files, if_pos hp, if_neg hblock,
              if_neg hwarn] using ih4
          · simp only [filter_printable_files, if_pos hp, if_neg hblock,
              if_neg hwarn]
            intro g hg hgp hgb
            rcases List.mem_cons.mp hg with rfl | hg2
            · exact absurd hgb hblock
            · exact ih5 g hg2 hgp hgb
    · refine ⟨?_, ?_, ?_, ?_, ?_⟩
      · simp only [filter_printable_files, if_neg hp, List.filter_cons,
          hp]
        simpa using ih1
      · simpa only [filter_printable_files, if_neg hp] using ih2
      · simpa only [filter_printable_files, if_neg hp] using ih3
      · simpa only [filter_printable_files, if_neg hp] using ih4
      · simp only [filter_printable_files, if_neg hp]
        intro g hg hgp hgb
        rcases List.mem_cons.mp hg with rfl | hg2
        · exact absurd hgp hp
        · exact ih5 g hg2 hgp hgb

/-- **C9** (amended).  `stats.total_files` equals the number of blob
entries that pass the crawler's admission test — the lower-cased
extension is on the allow-list and the path *starts with* the stripped
subpath (a raw string-prefix test, which also admits sibling paths such
as `stlxtra/…` for subpath `stl`) — and those files are partitioned
disjointly into normal (< 10 MB), large ([10 MB, 100 MB)) and blocked
(≥ 100 MB) tiers, every admitted file of at least 100 MB landing in
`blocked_files` and, its size exceeding every normal-tier bound, absent
from `normal_files`. -/
theorem crawl_stats_spec (tree : List GHFile) (p : String) :
    (∀ s, crawl_stats tree p = Except.ok s →
      s.total_files =
        ((tree.filter (fun it => it.type == "blob")).filter
          (passesFilter p)).length ∧
      s.total_files = s.normal_files + s.large_files + s.blocked_files) ∧
    (∀ f ∈ (filter_printable_files
        (tree.filter (fun it => it.type == "blob")) p).1,
      f.size < FILE_SIZE_WARN_BYTES) ∧
    (∀ f ∈ (filter_printable_files
        (tree.filter (fun it => it.type == "blob")) p).2.1,
      FILE_SIZE_WARN_BYTES ≤ f.size ∧ f.size < FILE_SIZE_BLOCK_BYTES) ∧
    (∀ f ∈ (filter_printable_files
        (tree.filter (fun it => it.type == "blob")) p).2.2,
      FILE_SIZE_BLOCK_BYTES ≤ f.size) ∧
    (∀ f ∈ tree.filter (fun it => it.type == "blob"),
      passesFilter p f = true → FILE_SIZE_BLOCK_BYTES ≤ f.size →
      f ∈ (filter_printable_files
        (tree.filter (fun it => it.type == "blob")) p).2.2) := by
  obtain ⟨h1, h2, h3, h4, h5⟩ := filter_printable_files_spec p
    (tree.filter (fun it => it.type == "blob"))
  refine ⟨?_, h2, h3, h4, h5⟩
  intro s hs
  simp only [crawl_stats] at hs
  split at hs
  · exact Except.noConfusion hs
  · simp only [Except.ok.injEq] at hs
    subst hs
    constructor
    · simp only [List.length_append]
      omega
    · simp only [List.length_append]

/-- Witness for `crawl_stats_spec`: a four-entry tree for subpath `stl`
(one normal file, one 200 MB blocked file, one disallowed extension, one
non-blob entry) yields `total_files = 2`, matching the admitted-entry
count and the tier sum. -/
theorem crawl_stats_spec_witness :
    ∃ s, crawl_stats
        [{ path := "stl/a.stl", size := 5, type := "blob" },
         { path := "stl/big.stl", size := 209715200, type := "blob" },
         { path := "stl/readme.md", size := 3, type := "blob" },
         { path := "doc/ignore.stl", size := 4, type := "tree" }] "stl" =
      Except.ok s ∧
      (s.total_files =
        ((([{ path := "stl/a.stl", size := 5, type := "blob" },
            { path := "stl/big.stl", size := 209715200, type := "blob" },
            { path := "stl/readme.md", size := 3, type := "blob" },
            { path := "doc/ignore.stl", size := 4, type := "tree" }] :
            List GHFile).filter (fun it => it.type == "blob")).filter
          (passesFilter "stl")).length ∧
      s.total_files = s.normal_files + s.large_files + s.blocked_files) :=
  ⟨_, rfl, (crawl_stats_spec
    [{ path := "stl/a.stl", size := 5, type := "blob" },
     { path := "stl/big.stl", size := 209715200, type := "blob" },
     { path := "stl/readme.md", size := 3, type := "blob" },
     { path := "doc/ignore.stl", size := 4, type := "tree" }] "stl").1
    _ rfl⟩

/-- **C9** counterexample to the claim as stated: for subpath `stl`, a
tree holding printable blobs `stl/a.stl` and `stlxtra/b.stl` yields
`stats.total_files = 2`, yet only one of those blobs is located under
`stl/` — the crawler's raw `startswith` test also counts the sibling
directory `stlxtra`. -/
theorem crawl_stats_subpath_collision :
    (∃ s, crawl_stats
        [{ path := "stl/a.stl", size := 5, type := "blob" },
         { path := "stlxtra/b.stl", size := 6, type := "blob" }] "stl" =
      Except.ok s ∧ s.total_files = 2) ∧
    (([{ path := "stl/a.stl", size := 5, type := "blob" },
       { path := "stlxtra/b.stl", size := 6, type := "blob" }] :
        List GHFile).filter (fun f => f.type == "blob" &&
          locatedUnderSubpath "stl" f &&
          decide (fileExtOf f.path ∈ PRINTABLE_EXTENSIONS))).length = 1 :=
  ⟨⟨_, rfl, rfl⟩, by decide⟩

/-! ## Claim C10: case-insensitive cache keys -/

/-- **C10**.  `get_cache_key` lower-cases owner, repo and branch and
lower-cases and slash-strips the path, so two crawl targets that differ
only in letter case (or in leading/trailing slashes of the path) share
one cache key — `crawl_github_repository` (lines 407-414) looks this key
up before any network call, so the cached manifest of one target answers
a crawl of the other. -/
theorem get_cache_key_case_insensitive
    (o1 o2 r1 r2 b1 b2 p1 p2 : String)
    (ho : pyLower o1 = pyLower o2) (hr : pyLower r1 = pyLower r2)
    (hb : pyLower b1 = pyLower b2)
    (hp : pyLower (pyStripSlashes p1) = pyLower (pyStripSlashes p2)) :
    get_cache_key o1 r1 b1 p1 = get_cache_key o2 r2 b2 p2 := by
  have key : ∀ p : String,
      (if p = "" then "" else pyLower (pyStripSlashes p)) =
        pyLower (pyStripSlashes p) := by
    intro p
    by_cases h : p = ""
    · subst h
      rfl
    · rw [if_neg h]
  simp only [get_cache_key]
  rw [key p1, key p2, ho, hr, hb, hp]

/-- Witness for `get_cache_key_case_insensitive`: the mixed-case target
with a slashed path collides with its lower-case slash-free variant. -/
theorem get_cache_key_case_insensitive_witness :
    get_cache_key "Acme" "Widgets" "Main" "/STL/" =
      get_cache_key "acme" "widgets" "main" "stl" :=
  get_cache_key_case_insensitive "Acme" "acme" "Widgets" "widgets"
    "Main" "main" "/STL/" "stl" (by decide) (by decide) (by decide)
    (by decide)

end PrintVault
